import Mathlib

/-
Shallow embedding of the sunxi-g2d driver (Allwinner 2D graphics accelerator).
Sources embedded: src/module/sunxi_g2d_hw.c, src/module/sunxi_g2d_hw.h,
src/module/sunxi_g2d.h, src/unnamed/part_001 (the main driver file).
Machine integers are modelled as Nat with explicit reductions modulo 2^32
(u32) and 2^64 (uintptr_t / dma_addr_t on a 64-bit platform) at the points
where the C code wraps.
-/

namespace SunxiG2d

/-- 2^32, the modulus of C u32 arithmetic. -/
def U32 : Nat := 4294967296

/-- 2^64, the modulus of C 64-bit pointer arithmetic. -/
def U64 : Nat := 18446744073709551616

/-- C u32 subtraction a - b with wrap-around (two's complement). -/
def u32sub (a b : Nat) : Nat := (a + (U32 - b % U32)) % U32

/-- C u32 bitwise complement of v. -/
def u32compl (v : Nat) : Nat := (U32 - 1) ^^^ (v % U32)

/-- Kernel ALIGN(x, a) macro in u32 arithmetic: (x + a - 1) and-not (a - 1).
The argument x is reduced mod 2^32 by the addition, matching the u32
multiplication that produces it in the callers. -/
def align32 (x a : Nat) : Nat := ((x + u32sub a 1) % U32) &&& u32compl (u32sub a 1)

/- Hardware format ids, from enum g2d_fmt_hw_id in src/module/sunxi_g2d_hw.h. -/

def G2D_FORMAT_ARGB8888 : Nat := 0
def G2D_FORMAT_BGRX8888 : Nat := 7
def G2D_FORMAT_BGR888 : Nat := 9
def G2D_FORMAT_BGRA5551 : Nat := 19
def G2D_FORMAT_BGRA1010102 : Nat := 23
def G2D_FORMAT_YUV422UVC_V1U1V0U0 : Nat := 0x24
def G2D_FORMAT_YUV422UVC_U1V1U0V0 : Nat := 0x25
def G2D_FORMAT_YUV422_PLANAR : Nat := 0x26
def G2D_FORMAT_YUV420UVC_V1U1V0U0 : Nat := 0x28
def G2D_FORMAT_YUV420UVC_U1V1U0V0 : Nat := 0x29
def G2D_FORMAT_YUV420_PLANAR : Nat := 0x2a
def G2D_FORMAT_YUV411UVC_V1U1V0U0 : Nat := 0x2c
def G2D_FORMAT_YUV411UVC_U1V1U0V0 : Nat := 0x2d
def G2D_FORMAT_YUV411_PLANAR : Nat := 0x2e
def G2D_FORMAT_Y8 : Nat := 0x30

/-- V4L2_PIX_FMT_XBGR32 = v4l2_fourcc of X, R, 2, 4 = 0x34325258. -/
def V4L2_PIX_FMT_XBGR32 : Nat := 0x34325258

/-- struct g2d_fmt from src/module/sunxi_g2d.h: fourcc, depth, hw_id. -/
structure G2dFmt where
  fourcc : Nat
  depth : Nat
  hw_id : Nat
deriving DecidableEq, Repr

/-- The g2d_supported_fmts catalog as shipped (src/unnamed/part_001 lines
42-48): a single entry, fourcc XBGR32 with hardware id G2D_FORMAT_BGRX8888. -/
def g2d_supported_fmts : List G2dFmt :=
  [{ fourcc := V4L2_PIX_FMT_XBGR32, depth := 32, hw_id := G2D_FORMAT_BGRX8888 }]

/-- find_fmt (src/unnamed/part_001 lines 61-70): linear scan of the catalog
for the first entry whose fourcc equals the descriptor pixelformat; the
global g2d_supported_fmts array is passed explicitly as a list. Returns
none where the C function returns NULL. -/
def find_fmt : List G2dFmt → Nat → Option G2dFmt
  | [], _ => none
  | f :: rest, pixelformat =>
      if f.fourcc = pixelformat then some f else find_fmt rest pixelformat

/-- v4l2_fmt_to_hw_id (src/module/sunxi_g2d_hw.c lines 42-48): matched
entry hardware id, or G2D_FORMAT_BGRX8888 when find_fmt returns NULL. -/
def v4l2_fmt_to_hw_id (fmts : List G2dFmt) (pixelformat : Nat) : Nat :=
  match find_fmt fmts pixelformat with
  | some fmt => fmt.hw_id
  | none => G2D_FORMAT_BGRX8888

/-- fmt2yuvcnt (src/module/sunxi_g2d_hw.c lines 113-177): maps a hardware
format id to the per-channel byte counts (ycnt, ucnt, vcnt), via the
ordered if-chain of the source; all three counts start at zero. -/
def fmt2yuvcnt (format : Nat) : Nat × Nat × Nat :=
  if format ≤ G2D_FORMAT_BGRX8888 then (4, 0, 0)
  else if format ≤ G2D_FORMAT_BGR888 then (3, 0, 0)
  else if format ≤ G2D_FORMAT_BGRA5551 then (2, 0, 0)
  else if format ≤ G2D_FORMAT_BGRA1010102 then (4, 0, 0)
  else if format ≤ 0x23 then (2, 0, 0)
  else if format ≤ 0x25 then (1, 2, 0)
  else if format = 0x26 then (1, 1, 1)
  else if format ≤ 0x29 then (1, 2, 0)
  else if format = 0x2a then (1, 1, 1)
  else if format ≤ 0x2d then (1, 2, 0)
  else if format = 0x2e then (1, 1, 1)
  else if format = 0x30 then (1, 0, 0)
  else if format ≤ 0x36 then (2, 4, 0)
  else if format ≤ 0x39 then (6, 0, 0)
  else (0, 0, 0)

/-- Helper: with the shipped one-entry catalog the hardware-id lookup is
constantly G2D_FORMAT_BGRX8888 (the single entry's id is also the
fallback id). Shared by the proofs about the shipped driver. -/
theorem v4l2_fmt_to_hw_id_shipped (pixelformat : Nat) :
    v4l2_fmt_to_hw_id g2d_supported_fmts pixelformat = G2D_FORMAT_BGRX8888 := by
  unfold v4l2_fmt_to_hw_id g2d_supported_fmts
  by_cases h : V4L2_PIX_FMT_XBGR32 = pixelformat <;> simp [h, find_fmt]

/-- struct v4l2_pix_format, the fields the driver reads or writes.
All fields are u32 in the source. -/
structure V4l2PixFormat where
  pixelformat : Nat
  width : Nat
  height : Nat
  bytesperline : Nat
  sizeimage : Nat
deriving DecidableEq, Repr

/-- struct v4l2_rect. left and top are s32 in the source; everywhere the
geometry code consumes them they are non-negative (g2d_s_selection rejects
negatives and the defaults are non-negative), so they are carried as Nat
here; the validation model below keeps them as Int. -/
structure V4l2Rect where
  left : Nat
  top : Nat
  width : Nat
  height : Nat
deriving DecidableEq, Repr

/-- struct g2d_frame from src/module/sunxi_g2d.h (the v4l2_selection
wrapper around the rectangle is flattened to the rectangle itself, the
only part the driver reads). -/
structure G2dFrame where
  v4l2_pix_fmt : V4l2PixFormat
  premult_alpha : Bool
  alpha_bld_mode : Nat
  alignment : Nat
  sel : V4l2Rect
deriving DecidableEq, Repr

/-- The pitches and (full 64-bit, pre-register-split) plane addresses a
geometry computation produces. The low 32 bits of each address go to the
LADD registers and the bits above 32 to the HADD registers, so this tuple
determines every pitch/address register write. -/
structure PlaneGeom where
  pitch0 : Nat
  pitch1 : Nat
  pitch2 : Nat
  addr0 : Nat
  addr1 : Nat
  addr2 : Nat
deriving DecidableEq, Repr

/-- Chroma-geometry branch chain of g2d_wb_set (src/module/sunxi_g2d_hw.c
lines 309-333), yielding (cw, cx, cy). In the 4:1:1 branch the source
assigns cw from sel.left and leaves cx uninitialized; the uninitialized
variable is modelled by the explicit junkCx argument. -/
def wbChroma (fmt_hw_id : Nat) (frm : G2dFrame) (junkCx : Nat) : Nat × Nat × Nat :=
  if G2D_FORMAT_YUV422UVC_V1U1V0U0 ≤ fmt_hw_id ∧ fmt_hw_id ≤ G2D_FORMAT_YUV422_PLANAR then
    (frm.v4l2_pix_fmt.width >>> 1, frm.sel.left >>> 1, frm.sel.top)
  else if G2D_FORMAT_YUV420UVC_V1U1V0U0 ≤ fmt_hw_id ∧ fmt_hw_id ≤ G2D_FORMAT_YUV420_PLANAR then
    (frm.v4l2_pix_fmt.width >>> 1, frm.sel.left >>> 1, frm.sel.top >>> 1)
  else if G2D_FORMAT_YUV411UVC_V1U1V0U0 ≤ fmt_hw_id ∧ fmt_hw_id ≤ G2D_FORMAT_YUV411_PLANAR then
    (frm.sel.left >>> 2, junkCx, frm.sel.top)
  else
    (0, 0, 0)

/-- Chroma-geometry branch chain of g2d_vlayer_set (src/module/sunxi_g2d_hw.c
lines 401-425), yielding (cw, cx, cy). In the 4:1:1 branch the source
assigns cx from sel.left and leaves cw uninitialized; the uninitialized
variable is modelled by the explicit junkCw argument. -/
def vlayerChroma (fmt_hw_id : Nat) (frm : G2dFrame) (junkCw : Nat) : Nat × Nat × Nat :=
  if G2D_FORMAT_YUV422UVC_V1U1V0U0 ≤ fmt_hw_id ∧ fmt_hw_id ≤ G2D_FORMAT_YUV422_PLANAR then
    (frm.sel.width >>> 1, frm.sel.left >>> 1, frm.sel.top)
  else if G2D_FORMAT_YUV420UVC_V1U1V0U0 ≤ fmt_hw_id ∧ fmt_hw_id ≤ G2D_FORMAT_YUV420_PLANAR then
    (frm.sel.width >>> 1, frm.sel.left >>> 1, frm.sel.top >>> 1)
  else if G2D_FORMAT_YUV411UVC_V1U1V0U0 ≤ fmt_hw_id ∧ fmt_hw_id ≤ G2D_FORMAT_YUV411_PLANAR then
    (junkCw, frm.sel.left >>> 2, frm.sel.top)
  else
    (0, 0, 0)

/-- Pitch and address computation of g2d_wb_set (src/module/sunxi_g2d_hw.c
lines 309-365) after the format id has been resolved: chroma branch chain,
fmt2yuvcnt, the three ALIGN pitches, and the three plane addresses.
Multiplications are u32 (mod 2^32) and the address sums are 64-bit. -/
def g2d_wb_set_geom_at (fmt_hw_id : Nat) (frm : G2dFrame) (a0 a1 a2 junkCx : Nat) :
    PlaneGeom :=
  let c := wbChroma fmt_hw_id frm junkCx
  let cnt := fmt2yuvcnt fmt_hw_id
  let pitch0 := align32 (cnt.1 * frm.v4l2_pix_fmt.width) frm.alignment
  let pitch1 := align32 (cnt.2.1 * c.1) frm.alignment
  let pitch2 := align32 (cnt.2.2 * c.1) frm.alignment
  { pitch0 := pitch0
    pitch1 := pitch1
    pitch2 := pitch2
    addr0 := (a0 + pitch0 * frm.sel.top % U32 + cnt.1 * frm.sel.left % U32) % U64
    addr1 := (a1 + pitch1 * c.2.2 % U32 + cnt.2.1 * c.2.1 % U32) % U64
    addr2 := (a2 + pitch2 * c.2.2 % U32 + cnt.2.2 * c.2.1 % U32) % U64 }

/-- g2d_wb_set's geometry (src/module/sunxi_g2d_hw.c lines 278-368): the
format id is resolved from the frame's pixel format through the shipped
catalog, then the plane layout is computed. -/
def g2d_wb_set_geom (frm : G2dFrame) (a0 a1 a2 junkCx : Nat) : PlaneGeom :=
  g2d_wb_set_geom_at (v4l2_fmt_to_hw_id g2d_supported_fmts frm.v4l2_pix_fmt.pixelformat)
    frm a0 a1 a2 junkCx

/-- Pitch and address computation of g2d_vlayer_set (src/module/sunxi_g2d_hw.c
lines 401-452) after the format id has been resolved. -/
def g2d_vlayer_set_geom_at (fmt_hw_id : Nat) (frm : G2dFrame) (a0 a1 a2 junkCw : Nat) :
    PlaneGeom :=
  let c := vlayerChroma fmt_hw_id frm junkCw
  let cnt := fmt2yuvcnt fmt_hw_id
  let pitch0 := align32 (cnt.1 * frm.v4l2_pix_fmt.width) frm.alignment
  let pitch1 := align32 (cnt.2.1 * c.1) frm.alignment
  let pitch2 := align32 (cnt.2.2 * c.1) frm.alignment
  { pitch0 := pitch0
    pitch1 := pitch1
    pitch2 := pitch2
    addr0 := (a0 + pitch0 * frm.sel.top % U32 + cnt.1 * frm.sel.left % U32) % U64
    addr1 := (a1 + pitch1 * c.2.2 % U32 + cnt.2.1 * c.2.1 % U32) % U64
    addr2 := (a2 + pitch2 * c.2.2 % U32 + cnt.2.2 * c.2.1 % U32) % U64 }

/-- g2d_vlayer_set's geometry (src/module/sunxi_g2d_hw.c lines 370-466). -/
def g2d_vlayer_set_geom (frm : G2dFrame) (a0 a1 a2 junkCw : Nat) : PlaneGeom :=
  g2d_vlayer_set_geom_at (v4l2_fmt_to_hw_id g2d_supported_fmts frm.v4l2_pix_fmt.pixelformat)
    frm a0 a1 a2 junkCw

/- Size-register field encoders. Each mirrors the expression the source
feeds into the corresponding register field. The FIELD_PREP masks live in
sunxi_g2d_regs.h (not under src/); per the spec the size words pack the
height field above the width field, and only the encoded field values
below decide the zero-underflow question. -/

/-- Width field fed to WB_SIZE and BLD_OUT_SIZE by g2d_wb_set
(src/module/sunxi_g2d_hw.c lines 292-302): guarded (w == 0 ? 0 : w - 1). -/
def wbSizeWidthField (w : Nat) : Nat := if w = 0 then 0 else u32sub w 1

/-- Height field fed to WB_SIZE and BLD_OUT_SIZE by g2d_wb_set. -/
def wbSizeHeightField (h : Nat) : Nat := if h = 0 then 0 else u32sub h 1

/-- Width field fed to V0_MBSIZE and V0_SIZE by g2d_vlayer_set
(src/module/sunxi_g2d_hw.c lines 391-398): guarded (w == 0 ? 0 : w - 1). -/
def v0MbsizeWidthField (w : Nat) : Nat := if w = 0 then 0 else u32sub w 1

/-- Height field fed to V0_MBSIZE and V0_SIZE by g2d_vlayer_set. -/
def v0MbsizeHeightField (h : Nat) : Nat := if h = 0 then 0 else u32sub h 1

/-- The whole BLD_CH_ISIZE word written by g2d_bldin_set
(src/module/sunxi_g2d_hw.c line 245): ((rect_h - 1) << 16) | (rect_w - 1)
in u32 arithmetic, with no zero guard on either dimension. -/
def bldChIsizeWord (w h : Nat) : Nat :=
  ((u32sub h 1 <<< 16) % U32) ||| u32sub w 1

/-- EINVAL errno. -/
def EINVAL : Int := 22

/-- Two's complement u32 value of an s32 when it appears in a u32
comparison or sum (C usual arithmetic conversions). -/
def s32toU32 (x : Int) : Nat := (x % (U32 : Int)).toNat

/-- Bound checks of g2d_try_selection (src/unnamed/part_001 lines 480-496)
for a frame of pixel size frmW x frmH and a requested rectangle
(left, top, selW, selH). left and top arrive from userspace as s32; selW
and selH are u32. The target/type dispatch of lines 472-478 is orthogonal
to the bounds and assumed to have passed. Comparisons mixing the s32
left/top with the u32 frame dimensions are performed in u32, exactly as C
usual arithmetic conversions do. Returns 0 for accept, -EINVAL for
reject. -/
def g2d_try_selection_check (frmW frmH : Nat) (left top : Int) (selW selH : Nat) : Int :=
  if top < 0 ∨ left < 0 then -EINVAL
  else if s32toU32 left > u32sub frmW 1 ∨ s32toU32 top > u32sub frmH 1 then -EINVAL
  else if (s32toU32 left + selW) % U32 > u32sub frmW 1 then -EINVAL
  else if (s32toU32 top + selH) % U32 > u32sub frmH 1 then -EINVAL
  else 0

/-- Kernel clamp(val, lo, hi) = min(max(val, lo), hi) on u32. -/
def clampU32 (val lo hi : Nat) : Nat := min (max val lo) hi

/-- G2D_MIN_WIDTH / G2D_MIN_HEIGHT from src/module/sunxi_g2d.h. -/
def G2D_MIN_DIM : Nat := 8

/-- G2D_MAX_WIDTH / G2D_MAX_HEIGHT from src/module/sunxi_g2d.h. -/
def G2D_MAX_DIM : Nat := 2048

/-- g2d_try_fmt (src/unnamed/part_001 lines 364-384). find_fmt may return
NULL; the source then substitutes the fallback fourcc into the request but
leaves the local fmt pointer NULL, and still evaluates fmt->depth on line
380. That NULL dereference is modelled as the result none; a defined
result is some of the completed pixel format. -/
def g2d_try_fmt (pix : V4l2PixFormat) : Option V4l2PixFormat :=
  let fmtOpt := find_fmt g2d_supported_fmts pix.pixelformat
  let pix1 :=
    match fmtOpt with
    | none => { pix with pixelformat := (g2d_supported_fmts.headD ⟨0, 0, 0⟩).fourcc }
    | some _ => pix
  match fmtOpt with
  | none => none
  | some fmt =>
      let width := clampU32 pix1.width G2D_MIN_DIM G2D_MAX_DIM
      let height := clampU32 pix1.height G2D_MIN_DIM G2D_MAX_DIM
      let bytesperline := (width * fmt.depth % U32) >>> 3
      some { pix1 with
              width := width
              height := height
              bytesperline := bytesperline
              sizeimage := height * bytesperline % U32 }

/- Device-register model. The register file is a map from register offset
to stored value; readl returns its u32 value. The offsets and bit
positions of G2D_MIXER_INT, G2D_AHB_RESET and their bits come from
sunxi_g2d_regs.h, which is not under src/. Modelled from the spec: the
interrupt register holds one pending/finish status bit and one
interrupt-enable bit, and the AHB reset register holds one mixer reset bit
and one rotation reset bit; representative distinct offsets and bit
positions are fixed below, and no theorem depends on their exact values
beyond distinctness. -/

/-- Register file: offset to stored value. -/
def RegState : Type := Nat → Nat

/-- Modelled from the spec: offset of the mixer interrupt register. -/
def G2D_MIXER_INT : Nat := 0x10

/-- Modelled from the spec: offset of the AHB reset register. -/
def G2D_AHB_RESET : Nat := 0x08

/-- Modelled from the spec: the pending/finish status bit (bit 0). -/
def G2D_MIXER_INT_IRQ_PENDING : Nat := 1

/-- Modelled from the spec: the finish-interrupt enable bit (bit 1). -/
def G2D_MIXER_INT_FINISH_IRQ_EN : Nat := 2

/-- Modelled from the spec: the mixer AHB reset bit (bit 0). -/
def G2D_AHB_MIXER_RESET : Nat := 1

/-- Modelled from the spec: the rotation AHB reset bit (bit 1). -/
def G2D_AHB_ROT_RESET : Nat := 2

/-- g2d_read (src/module/sunxi_g2d_hw.c lines 19-22): readl yields the
register's u32 value. -/
def g2d_read (s : RegState) (reg : Nat) : Nat := s reg % U32

/-- One writel: update the register file at one offset. -/
def writeReg (s : RegState) (reg v : Nat) : RegState :=
  fun r => if r = reg then v else s r

/-- Apply a list of (offset, value) writes in order. -/
def applyWrites (s : RegState) : List (Nat × Nat) → RegState
  | [] => s
  | (reg, v) :: rest => applyWrites (writeReg s reg v) rest

/-- g2d_clr_bits (src/module/sunxi_g2d_hw.c lines 36-40): one
read-modify-write clearing the given bits; returns the new state and the
single write performed. -/
def g2d_clr_bits (s : RegState) (reg bits : Nat) : RegState × List (Nat × Nat) :=
  let v := g2d_read s reg &&& u32compl bits
  (writeReg s reg v, [(reg, v)])

/-- g2d_set_bits (src/module/sunxi_g2d_hw.c lines 30-34): one
read-modify-write setting the given bits. -/
def g2d_set_bits (s : RegState) (reg bits : Nat) : RegState × List (Nat × Nat) :=
  let v := g2d_read s reg ||| bits
  (writeReg s reg v, [(reg, v)])

/-- g2d_mixer_irq_query (src/module/sunxi_g2d_hw.c lines 79-92): read the
interrupt register; when the pending bit is set, clear pending and enable
bits with one g2d_clr_bits and return 1, otherwise return 0 with no
write. Result: (return value, writes performed). -/
def g2d_mixer_irq_query (s : RegState) : Nat × List (Nat × Nat) :=
  let tmp := g2d_read s G2D_MIXER_INT
  if tmp &&& G2D_MIXER_INT_IRQ_PENDING ≠ 0 then
    (1, (g2d_clr_bits s G2D_MIXER_INT
          (G2D_MIXER_INT_IRQ_PENDING ||| G2D_MIXER_INT_FINISH_IRQ_EN)).2)
  else
    (0, [])

/-- g2d_mixer_reset (src/module/sunxi_g2d_hw.c lines 94-98): clear then
set the mixer AHB reset bit. Result: (final state, writes performed). -/
def g2d_mixer_reset (s : RegState) : RegState × List (Nat × Nat) :=
  let r1 := g2d_clr_bits s G2D_AHB_RESET G2D_AHB_MIXER_RESET
  let r2 := g2d_set_bits r1.1 G2D_AHB_RESET G2D_AHB_MIXER_RESET
  (r2.1, r1.2 ++ r2.2)

/-- g2d_rot_reset (src/module/sunxi_g2d_hw.c lines 100-104): its body
clears then sets the mixer AHB reset bit, exactly like g2d_mixer_reset
(the rotation reset bit never appears in it). -/
def g2d_rot_reset (s : RegState) : RegState × List (Nat × Nat) :=
  let r1 := g2d_clr_bits s G2D_AHB_RESET G2D_AHB_MIXER_RESET
  let r2 := g2d_set_bits r1.1 G2D_AHB_RESET G2D_AHB_MIXER_RESET
  (r2.1, r1.2 ++ r2.2)

/- Theorems settling the claims. -/

/-- C1. The spec requires that the selection left=0, top=0, width=W,
height=H on a W x H frame be accepted; the source's strict bound
left + width > frame_width - 1 rejects it with -EINVAL. Evaluated here at
the driver's default 800 x 480 frame: the full-frame selection is
rejected (refuting the claim's acceptance half, a code bug the spec flags
as a likely off-by-one), while the out-of-bounds selection
left=800, top=0, 1 x 1 is rejected as the claim demands. -/
theorem g2d_try_selection_fullframe_rejected :
    g2d_try_selection_check 800 480 0 0 800 480 = -EINVAL ∧
    g2d_try_selection_check 800 480 0 0 799 479 = 0 ∧
    g2d_try_selection_check 800 480 800 0 1 1 = -EINVAL := by
  decide

/-- C10 helper is v4l2_fmt_to_hw_id_shipped above. C10. With the catalog
as shipped (one entry, fourcc XBGR32, hardware id G2D_FORMAT_BGRX8888,
which is also the fallback), the hardware-id lookup is the constant
function G2D_FORMAT_BGRX8888. -/
theorem v4l2_fmt_to_hw_id_constant (pixelformat : Nat) :
    v4l2_fmt_to_hw_id g2d_supported_fmts pixelformat = G2D_FORMAT_BGRX8888 :=
  v4l2_fmt_to_hw_id_shipped pixelformat

/-- C2. Write-back plane geometry equals layer-input plane geometry: for
every frame descriptor, plane base addresses and values of the
uninitialized 4:1:1 locals, g2d_wb_set and g2d_vlayer_set compute the same
three pitches and the same three plane addresses. The YUV branches of the
two functions differ textually, but the shipped format resolution maps
every pixel format to G2D_FORMAT_BGRX8888, so both computations always
take the packed-RGB branch and coincide. -/
theorem wb_vlayer_geom_eq (frm : G2dFrame) (a0 a1 a2 junkCx junkCw : Nat) :
    g2d_wb_set_geom frm a0 a1 a2 junkCx = g2d_vlayer_set_geom frm a0 a1 a2 junkCw := by
  unfold g2d_wb_set_geom g2d_vlayer_set_geom
  rw [v4l2_fmt_to_hw_id_shipped]
  rfl

/-- Frame of the concrete 4:2:0 scenario of C3: 640 x 480 frame,
selection (16, 16, 320, 240), alignment 8. -/
def c3Frame : G2dFrame :=
  { v4l2_pix_fmt := { pixelformat := V4L2_PIX_FMT_XBGR32, width := 640, height := 480,
                      bytesperline := 0, sizeimage := 0 }
    premult_alpha := false
    alpha_bld_mode := 0
    alignment := 8
    sel := { left := 16, top := 16, width := 320, height := 240 } }

/-- C3 counterexample. At the claim's exact input, the layer-input
computation (g2d_vlayer_set, one of the two cited code places) halves the
selection width, not the frame width: it yields chroma width cw = 160 and
chroma pitches 160, refuting the claimed cw = 320 and chroma pitches
320. -/
theorem vlayer_c3_chroma_pitch_160 :
    vlayerChroma G2D_FORMAT_YUV420_PLANAR c3Frame 0 = (160, 8, 8) ∧
    (g2d_vlayer_set_geom_at G2D_FORMAT_YUV420_PLANAR c3Frame 0 0 0 0).pitch1 = 160 ∧
    ¬ (g2d_vlayer_set_geom_at G2D_FORMAT_YUV420_PLANAR c3Frame 0 0 0 0).pitch1 = 320 := by
  decide

/-- C3 amended. For the write-back computation (g2d_wb_set), the 4:2:0
planar scenario with per-channel byte counts (1, 1, 1) on a 640 x 480
frame, selection (16, 16, 320, 240), alignment 8, yields cw = 320, cx = 8,
cy = 8, luma pitch 640 and chroma pitches 320 exactly as the claim states;
the layer-input computation instead yields cw = 160 and chroma pitches
160. -/
theorem wb_c3_plane_layout :
    fmt2yuvcnt G2D_FORMAT_YUV420_PLANAR = (1, 1, 1) ∧
    wbChroma G2D_FORMAT_YUV420_PLANAR c3Frame 0 = (320, 8, 8) ∧
    (g2d_wb_set_geom_at G2D_FORMAT_YUV420_PLANAR c3Frame 0 0 0 0).pitch0 = 640 ∧
    (g2d_wb_set_geom_at G2D_FORMAT_YUV420_PLANAR c3Frame 0 0 0 0).pitch1 = 320 ∧
    (g2d_wb_set_geom_at G2D_FORMAT_YUV420_PLANAR c3Frame 0 0 0 0).pitch2 = 320 := by
  decide

/-- C4 counterexample. The blend-pipe input size register BLD_CH_ISIZE is
written with unguarded u32 (dimension - 1) arithmetic: a zero selection
width underflows the whole word to the all-ones value 2^32 - 1 (the
register image of -1), not to 0 as the claim states for all four size
registers. -/
theorem bld_ch_isize_zero_width_underflows :
    bldChIsizeWord 0 5 = 4294967295 ∧ ¬ bldChIsizeWord 0 5 = 0 := by
  decide

/-- C4 amended. The zero-to-zero guard holds for the three size words that
have it: the layer size fields (V0_MBSIZE, also written to V0_SIZE), the
write-back size fields (WB_SIZE, also written to BLD_OUT_SIZE) all encode
a zero dimension as the field value 0; the blend-pipe input size word
(BLD_CH_ISIZE) has no guard and a zero height underflows its upper half
to all-ones. -/
theorem size_fields_zero_guard :
    wbSizeWidthField 0 = 0 ∧ wbSizeHeightField 0 = 0 ∧
    v0MbsizeWidthField 0 = 0 ∧ v0MbsizeHeightField 0 = 0 ∧
    wbSizeWidthField 5 = 4 ∧ v0MbsizeHeightField 5 = 4 ∧
    bldChIsizeWord 3 0 = 4294901762 := by
  decide

/-- C9. g2d_try_fmt dereferences the NULL format pointer when the
requested pixelformat matches no catalog entry: find_fmt returns NULL,
the source substitutes the fallback fourcc into the request but leaves
fmt NULL and still evaluates fmt->depth, modelled as the result none.
At a supported pixelformat the function completes, clamping 800 x 480 and
computing bytesperline 3200 and sizeimage 1536000. -/
theorem g2d_try_fmt_null_deref :
    g2d_try_fmt { pixelformat := 0, width := 800, height := 480,
                  bytesperline := 0, sizeimage := 0 } = none ∧
    g2d_try_fmt { pixelformat := V4L2_PIX_FMT_XBGR32, width := 800, height := 480,
                  bytesperline := 0, sizeimage := 0 } =
      some { pixelformat := V4L2_PIX_FMT_XBGR32, width := 800, height := 480,
             bytesperline := 3200, sizeimage := 1536000 } := by
  decide

/-- C6. Format resolution never fails: for every catalog and every
requested pixelformat, v4l2_fmt_to_hw_id returns the hardware id of a
matching catalog entry when one exists, and the designated fallback
G2D_FORMAT_BGRX8888 when no entry matches. -/
theorem v4l2_fmt_to_hw_id_total (fmts : List G2dFmt) (pixelformat : Nat) :
    ((∃ f ∈ fmts, f.fourcc = pixelformat) →
      ∃ f ∈ fmts, f.fourcc = pixelformat ∧
        v4l2_fmt_to_hw_id fmts pixelformat = f.hw_id) ∧
    ((∀ f ∈ fmts, f.fourcc ≠ pixelformat) →
      v4l2_fmt_to_hw_id fmts pixelformat = G2D_FORMAT_BGRX8888) := by
  induction fmts with
  | nil => simp [v4l2_fmt_to_hw_id, find_fmt]
  | cons f rest ih =>
      by_cases hf : f.fourcc = pixelformat
      · refine ⟨fun _ => ⟨f, List.mem_cons_self f rest, hf, ?_⟩, fun hall => ?_⟩
        · simp [v4l2_fmt_to_hw_id, find_fmt, hf]
        · exact absurd hf (hall f (List.mem_cons_self f rest))
      · have hrw : v4l2_fmt_to_hw_id (f :: rest) pixelformat =
            v4l2_fmt_to_hw_id rest pixelformat := by
          simp [v4l2_fmt_to_hw_id, find_fmt, hf]
        refine ⟨fun hex => ?_, fun hall => ?_⟩
        · obtain ⟨g, hg, hgf⟩ := hex
          rcases List.mem_cons.mp hg with rfl | hg
          · exact absurd hgf hf
          · obtain ⟨g, hgm, hgf, hgid⟩ := ih.1 ⟨g, hg, hgf⟩
            exact ⟨g, List.mem_cons_of_mem f hgm, hgf, hrw ▸ hgid⟩
        · rw [hrw]
          exact ih.2 fun g hg => hall g (List.mem_cons_of_mem f hg)

/-- C6 witness: with the shipped catalog, the matching pixelformat XBGR32
resolves to the matched entry's hardware id, and the non-matching
pixelformat 0 resolves to the fallback. -/
theorem v4l2_fmt_to_hw_id_total_witness :
    (∃ f ∈ g2d_supported_fmts, f.fourcc = V4L2_PIX_FMT_XBGR32 ∧
      v4l2_fmt_to_hw_id g2d_supported_fmts V4L2_PIX_FMT_XBGR32 = f.hw_id) ∧
    v4l2_fmt_to_hw_id g2d_supported_fmts 0 = G2D_FORMAT_BGRX8888 :=
  ⟨(v4l2_fmt_to_hw_id_total g2d_supported_fmts V4L2_PIX_FMT_XBGR32).1
      ⟨{ fourcc := V4L2_PIX_FMT_XBGR32, depth := 32, hw_id := G2D_FORMAT_BGRX8888 },
        by decide, by decide⟩,
    (v4l2_fmt_to_hw_id_total g2d_supported_fmts 0).2 (by decide)⟩

/-- Helper: above the last supported id 0x39 every condition of the
fmt2yuvcnt chain is false, so the counts default to all-zero. -/
theorem fmt2yuvcnt_of_gt (format : Nat) (h : 0x39 < format) :
    fmt2yuvcnt format = (0, 0, 0) := by
  unfold fmt2yuvcnt G2D_FORMAT_BGRX8888 G2D_FORMAT_BGR888 G2D_FORMAT_BGRA5551
    G2D_FORMAT_BGRA1010102
  repeat rw [if_neg (by omega : ¬ _)]

/-- C7. The channel-layout table is total: every format id yields one of
the finitely many defined (ycnt, ucnt, vcnt) triples of the source (so the
result is always defined and non-negative, defaulting to all-zero above
the supported range); the interleaved-chroma YUV variants map to
(1, 2, 0), the fully planar YUV variants map to (1, 1, 1), and ids beyond
the last supported id 0x39 still produce the all-zero result. -/
theorem fmt2yuvcnt_total (format : Nat) :
    fmt2yuvcnt format ∈
      [(4, 0, 0), (3, 0, 0), (2, 0, 0), (1, 2, 0), (1, 1, 1), (1, 0, 0),
        (2, 4, 0), (6, 0, 0), (0, 0, 0)] ∧
    ((format = G2D_FORMAT_YUV422UVC_V1U1V0U0 ∨ format = G2D_FORMAT_YUV422UVC_U1V1U0V0 ∨
      format = G2D_FORMAT_YUV420UVC_V1U1V0U0 ∨ format = G2D_FORMAT_YUV420UVC_U1V1U0V0 ∨
      format = G2D_FORMAT_YUV411UVC_V1U1V0U0 ∨ format = G2D_FORMAT_YUV411UVC_U1V1U0V0) →
      fmt2yuvcnt format = (1, 2, 0)) ∧
    ((format = G2D_FORMAT_YUV422_PLANAR ∨ format = G2D_FORMAT_YUV420_PLANAR ∨
      format = G2D_FORMAT_YUV411_PLANAR) →
      fmt2yuvcnt format = (1, 1, 1)) ∧
    (0x39 < format → fmt2yuvcnt format = (0, 0, 0)) := by
  refine ⟨?_, ?_, ?_, ?_⟩
  · rcases le_or_lt format 0x39 with h | h
    · interval_cases format <;> decide
    · rw [fmt2yuvcnt_of_gt format h]; decide
  · rintro (rfl | rfl | rfl | rfl | rfl | rfl) <;> decide
  · rintro (rfl | rfl | rfl) <;> decide
  · exact fun h => fmt2yuvcnt_of_gt format h

/-- C7 witness: the table at the interleaved-chroma id 0x24, at the planar
id 0x2a, and at the out-of-range id 0x40. -/
theorem fmt2yuvcnt_total_witness :
    fmt2yuvcnt 0x24 = (1, 2, 0) ∧ fmt2yuvcnt 0x2a = (1, 1, 1) ∧
    fmt2yuvcnt 0x40 = (0, 0, 0) :=
  ⟨(fmt2yuvcnt_total 0x24).2.1 (Or.inl rfl),
    (fmt2yuvcnt_total 0x2a).2.2.1 (Or.inr (Or.inl rfl)),
    (fmt2yuvcnt_total 0x40).2.2.2 (by decide)⟩

/-- Helper: the u32 test (t and 1) not-equal 0 is the test of bit 0. -/
theorem and_one_ne_zero_iff_testBit (t : Nat) : (t &&& 1 ≠ 0) ↔ t.testBit 0 = true := by
  rw [Nat.and_one_is_mod, ← Nat.mod_two_eq_one_iff_testBit_zero]
  omega

/-- C5. The interrupt completion query returns 1 exactly when the
pending/finish status bit (bit 0 of the interrupt register, per the
modelled layout) is set; when it is set, the single write performed clears
the pending bit and the enable bit (bit 1) together; when it is not set,
the query returns 0, performs no write, and leaves the register state
unchanged. -/
theorem g2d_mixer_irq_query_spec (s : RegState) :
    ((g2d_mixer_irq_query s).1 = 1 ↔ (g2d_read s G2D_MIXER_INT).testBit 0 = true) ∧
    ((g2d_read s G2D_MIXER_INT).testBit 0 = true →
      ∃ v, (g2d_mixer_irq_query s).2 = [(G2D_MIXER_INT, v)] ∧
        v.testBit 0 = false ∧ v.testBit 1 = false) ∧
    ((g2d_read s G2D_MIXER_INT).testBit 0 = false →
      (g2d_mixer_irq_query s).1 = 0 ∧ (g2d_mixer_irq_query s).2 = [] ∧
        applyWrites s (g2d_mixer_irq_query s).2 = s) := by
  by_cases hp : (g2d_read s G2D_MIXER_INT).testBit 0 = true
  · have hc : g2d_read s G2D_MIXER_INT &&& G2D_MIXER_INT_IRQ_PENDING ≠ 0 :=
      (and_one_ne_zero_iff_testBit (g2d_read s G2D_MIXER_INT)).mpr hp
    have hq : g2d_mixer_irq_query s =
        (1, [(G2D_MIXER_INT, g2d_read s G2D_MIXER_INT &&&
          u32compl (G2D_MIXER_INT_IRQ_PENDING ||| G2D_MIXER_INT_FINISH_IRQ_EN))]) := by
      unfold g2d_mixer_irq_query g2d_clr_bits
      rw [if_pos hc]
    refine ⟨?_, fun _ => ⟨g2d_read s G2D_MIXER_INT &&&
        u32compl (G2D_MIXER_INT_IRQ_PENDING ||| G2D_MIXER_INT_FINISH_IRQ_EN),
        ?_, ?_, ?_⟩, fun hn => absurd hp (by simp [hn])⟩
    · rw [hq]; simp [hp]
    · rw [hq]
    · rw [Nat.testBit_and]
      simp [show (u32compl (G2D_MIXER_INT_IRQ_PENDING |||
        G2D_MIXER_INT_FINISH_IRQ_EN)).testBit 0 = false from by decide]
    · rw [Nat.testBit_and]
      simp [show (u32compl (G2D_MIXER_INT_IRQ_PENDING |||
        G2D_MIXER_INT_FINISH_IRQ_EN)).testBit 1 = false from by decide]
  · have hc : ¬ g2d_read s G2D_MIXER_INT &&& G2D_MIXER_INT_IRQ_PENDING ≠ 0 :=
      fun h => hp ((and_one_ne_zero_iff_testBit (g2d_read s G2D_MIXER_INT)).mp h)
    have hq : g2d_mixer_irq_query s = (0, []) := by
      unfold g2d_mixer_irq_query
      rw [if_neg hc]
    rw [hq]
    exact ⟨by simpa using hp, fun h => absurd h hp, fun _ => ⟨rfl, rfl, rfl⟩⟩

/-- C5 witness: at the register state holding 3 everywhere (pending and
enable bits both set), the query reports handled and its single write
clears both bits. -/
theorem g2d_mixer_irq_query_spec_witness :
    ((g2d_mixer_irq_query (fun _ => 3)).1 = 1) ∧
    (∃ v, (g2d_mixer_irq_query (fun _ => 3)).2 = [(G2D_MIXER_INT, v)] ∧
      v.testBit 0 = false ∧ v.testBit 1 = false) ∧
    ((g2d_mixer_irq_query (fun _ => 4)).1 = 0 ∧
      (g2d_mixer_irq_query (fun _ => 4)).2 = [] ∧
      applyWrites (fun _ => 4) (g2d_mixer_irq_query (fun _ => 4)).2 = fun _ => 4) :=
  ⟨(g2d_mixer_irq_query_spec (fun _ => 3)).1.mpr (by decide),
    (g2d_mixer_irq_query_spec (fun _ => 3)).2.1 (by decide),
    (g2d_mixer_irq_query_spec (fun _ => 4)).2.2 (by decide)⟩

/-- Helper: reducing mod 2^32 does not change bits below 32. -/
theorem u32_testBit_mod (x i : Nat) (h : i < 32) : (x % U32).testBit i = x.testBit i := by
  rw [show U32 = 2 ^ 32 from rfl, Nat.testBit_mod_two_pow]
  simp [h]

/-- C8. g2d_rot_reset and g2d_mixer_reset are extensionally equal: from
every starting register state they produce the same final state and the
same write trace; the trace is exactly two writes, both to the AHB reset
register, both preserving the rotation reset bit (bit 1 of the modelled
layout); the final value has the mixer reset bit (bit 0) set, the
rotation bit unchanged, and every other register untouched. -/
theorem g2d_rot_reset_eq_mixer_reset (s : RegState) :
    g2d_rot_reset s = g2d_mixer_reset s ∧
    (g2d_rot_reset s).2.length = 2 ∧
    (∀ w ∈ (g2d_rot_reset s).2, w.1 = G2D_AHB_RESET ∧
      w.2.testBit 1 = (g2d_read s G2D_AHB_RESET).testBit 1) ∧
    ((g2d_rot_reset s).1 G2D_AHB_RESET).testBit 1 =
      (g2d_read s G2D_AHB_RESET).testBit 1 ∧
    ((g2d_rot_reset s).1 G2D_AHB_RESET).testBit 0 = true ∧
    (∀ r, r ≠ G2D_AHB_RESET → (g2d_rot_reset s).1 r = s r) := by
  have hb1 : ∀ x : Nat, (x &&& u32compl G2D_AHB_MIXER_RESET).testBit 1 = x.testBit 1 := by
    intro x
    rw [Nat.testBit_and]
    simp [show (u32compl G2D_AHB_MIXER_RESET).testBit 1 = true from by decide]
  have hb2 : ∀ x : Nat, ((x % U32) ||| G2D_AHB_MIXER_RESET).testBit 1 = x.testBit 1 := by
    intro x
    rw [Nat.testBit_or, u32_testBit_mod x 1 (by omega)]
    simp [show (G2D_AHB_MIXER_RESET).testBit 1 = false from by decide]
  have hb3 : ∀ x : Nat, ((x % U32) ||| G2D_AHB_MIXER_RESET).testBit 0 = true := by
    intro x
    rw [Nat.testBit_or]
    simp [show (G2D_AHB_MIXER_RESET).testBit 0 = true from by decide]
  refine ⟨rfl, rfl, ?_, ?_, ?_, ?_⟩
  · intro w hw
    have htr : (g2d_rot_reset s).2 =
        [(G2D_AHB_RESET, g2d_read s G2D_AHB_RESET &&& u32compl G2D_AHB_MIXER_RESET),
          (G2D_AHB_RESET, (((g2d_read s G2D_AHB_RESET &&&
            u32compl G2D_AHB_MIXER_RESET) % U32) ||| G2D_AHB_MIXER_RESET))] := rfl
    rw [htr] at hw
    simp only [List.mem_cons, List.not_mem_nil, or_false] at hw
    rcases hw with rfl | rfl
    · exact ⟨rfl, hb1 _⟩
    · refine ⟨rfl, ?_⟩
      rw [hb2 _, hb1 _]
  · have hfin : (g2d_rot_reset s).1 G2D_AHB_RESET =
        (((g2d_read s G2D_AHB_RESET &&& u32compl G2D_AHB_MIXER_RESET) % U32) |||
          G2D_AHB_MIXER_RESET) := rfl
    rw [hfin, hb2 _, hb1 _]
  · have hfin : (g2d_rot_reset s).1 G2D_AHB_RESET =
        (((g2d_read s G2D_AHB_RESET &&& u32compl G2D_AHB_MIXER_RESET) % U32) |||
          G2D_AHB_MIXER_RESET) := rfl
    rw [hfin, hb3 _]
  · intro r hr
    show (if r = G2D_AHB_RESET then _ else if r = G2D_AHB_RESET then _ else s r) = s r
    rw [if_neg hr, if_neg hr]

/-- C8 witness: from the all-zero register state the two reset routines
agree, write twice, and leave an unrelated register untouched. -/
theorem g2d_rot_reset_eq_mixer_reset_witness :
    g2d_rot_reset (fun _ => 0) = g2d_mixer_reset (fun _ => 0) ∧
    (g2d_rot_reset (fun _ => 0)).2.length = 2 ∧
    (g2d_rot_reset (fun _ => 0)).1 3 = 0 :=
  ⟨(g2d_rot_reset_eq_mixer_reset (fun _ => 0)).1,
    (g2d_rot_reset_eq_mixer_reset (fun _ => 0)).2.1,
    (g2d_rot_reset_eq_mixer_reset (fun _ => 0)).2.2.2.2.2 3 (by decide)⟩

end SunxiG2d
